import Mathlib

/-!
Verification of the QuickButtons action-execution and live-status subsystem.

Shallow embedding of the button-type handlers, the process-output overlay and
the dispatcher from the repository sources:
  src/core/button_types/ping_handler.py
  src/core/button_types/http_test_handler.py
  src/core/button_types/pomodoro_handler.py
  src/core/button_types/color_picker_handler.py
  src/core/button_types/button_handler_factory.py
  src/core/managers/timer_manager.py
  src/core/managers/button_manager.py
  src/ui/dialogs/output_overlay.py
  quickbuttons.py (legacy monolithic OutputOverlay)

Python machine floats are embedded as exact rationals (the values appearing in
the claims are exactly representable); Python string formatting `.0f` and
`.1f` is embedded with round-half-to-even, which agrees with CPython on these
exact inputs.
-/

namespace QuickButtons

/-! ## Python fixed-point number formatting

`f"{x:.0f}"` and `f"{x:.1f}"` for the nonnegative values used by the
handlers.  CPython rounds ties to even. -/

/-- Round a rational to the nearest integer, ties to even
(the rounding used by CPython float formatting, on exact inputs). -/
def pyRound (x : ℚ) : ℤ :=
  let f := ⌊x⌋
  let r := x - f
  if r < 1/2 then f
  else if 1/2 < r then f + 1
  else if f % 2 = 0 then f else f + 1

/-- Embedding of Python `f"{x:.0f}"` for nonnegative `x`. -/
def formatFixed0 (x : ℚ) : String :=
  toString (pyRound x).toNat

/-- Embedding of Python `f"{x:.1f}"` for nonnegative `x`. -/
def formatFixed1 (x : ℚ) : String :=
  let n := (pyRound (x * 10)).toNat
  toString (n / 10) ++ "." ++ toString (n % 10)

/-! ## Ping handler (src/core/button_types/ping_handler.py)

State dict of `create_ping_button`:
`state = {"running": False, "job": None, "results": None, "clear_job": None}`
where `results` is either `(avg_ping, True, host)` or `(None, False, host)`;
the two shapes are embedded as the two constructors of `PingOutcome`. -/

/-- The `state["results"]` payload of a ping button:
`(avg_ping, True, host)` on success, `(None, False, host)` on failure. -/
inductive PingOutcome where
  | success (avgMs : ℚ) (host : String)
  | failed (host : String)
deriving DecidableEq, Repr

/-- `avg_ping = sum(ping_times) / len(ping_times)` from `run_ping`. -/
def avgPing (pingTimes : List ℚ) : ℚ :=
  pingTimes.sum / (pingTimes.length : ℚ)

/-- The `ping_str` computed inside `update_label`:
`f"{ping_time:.0f}ms"` when `ping_time < 1`, else `f"{ping_time:.1f}ms"`. -/
def pingTimeText (pingTime : ℚ) : String :=
  if pingTime < 1 then formatFixed0 pingTime ++ "ms"
  else formatFixed1 pingTime ++ "ms"

/-- `update_label` of `create_ping_button` (the text written to the button).
The translation lookup `self.app._` is the identity in the default English
locale and is embedded as such. -/
def pingUpdateLabelText (running : Bool) (results : Option PingOutcome)
    (origLabel : String) : String :=
  if running then "Pinging..."
  else
    match results with
    | some (.success pingTime host) => host ++ "\n" ++ pingTimeText pingTime
    | some (.failed host) => host ++ "\n" ++ "Failed"
    | none => origLabel

example : avgPing [12] = 12 := by norm_num [avgPing]

theorem pingTimeText_twelve : pingTimeText (avgPing [12]) = "12.0ms" := by
  have havg : avgPing [12] = 12 := by norm_num [avgPing]
  have hround : pyRound ((12 : ℚ) * 10) = 120 := by
    unfold pyRound
    norm_num
  rw [havg]
  unfold pingTimeText
  rw [if_neg (by norm_num)]
  unfold formatFixed1
  rw [hround]
  decide

/-- C6 counterexample: a successful ping to "8.8.8.8" with a measured 12 ms
round trip does NOT render `"8.8.8.8\n12ms"` — `update_label` formats times
at or above 1 ms with one decimal place, so 12 ms renders as `"12.0ms"`. -/
theorem c6_counterexample :
    pingUpdateLabelText false (some (.success (avgPing [12]) "8.8.8.8")) "Ping"
      ≠ "8.8.8.8\n12ms" := by
  show "8.8.8.8" ++ "\n" ++ pingTimeText (avgPing [12]) ≠ "8.8.8.8\n12ms"
  rw [pingTimeText_twelve]
  decide

/-- Claim C6 (amended): a ping probe to host "8.8.8.8" with one measured 12 ms
round trip renders `"8.8.8.8\n12.0ms"` (times of at least 1 ms are shown with
one decimal place); a failed probe renders `"8.8.8.8\nFailed"`. -/
theorem c6_ping_render :
    pingUpdateLabelText false (some (.success (avgPing [12]) "8.8.8.8")) "Ping"
        = "8.8.8.8\n12.0ms"
    ∧ pingUpdateLabelText false (some (.failed "8.8.8.8")) "Ping"
        = "8.8.8.8\nFailed" := by
  constructor
  · show "8.8.8.8" ++ "\n" ++ pingTimeText (avgPing [12]) = "8.8.8.8\n12.0ms"
    rw [pingTimeText_twelve]
    decide
  · decide

/-! ## Probe state machine and its stale-result discipline (claim C1)

Interleaving model of `create_ping_button` / `create_http_test_button`
(src/core/button_types/ping_handler.py `run_ping` / `start_ping` /
`clear_results`, src/core/button_types/http_test_handler.py `run_http_test` /
`start_http_test` / `clear_results`; both handlers share the same structure,
so the result payload is an abstract type `α`).

A click while `state["running"]` is a no-op.  Otherwise the click cancels a
pending clear callback, sets `running = True`, clears `results` and spawns a
worker thread.  The worker writes `state["results"]` and sets
`state["running"] = False` during its `try`/`finally` body (event
`complete`); its remaining `finally` work — posting `update_label` and
rescheduling the 60 s clear callback — can interleave with UI events and is
the separate `cleanup` event.  `gen` is a ghost activation counter, and each
worker is tagged with the generation of the activation that spawned it. -/

/-- Progress of one worker thread: `pending` before it has performed its
result write (the `try` body plus `state["running"] = False`), `cleanup`
afterwards, while it still has to reschedule the clear callback. -/
inductive WorkerPhase where
  | pending
  | cleanup
deriving DecidableEq, Repr

/-- One probe button's shared state plus the ghost bookkeeping of the live
worker threads.  `workers` holds `(generation, phase)` for every worker
thread that has been spawned and has not yet exited. -/
structure ProbeMach (α : Type) where
  running : Bool
  results : Option α
  gen : ℕ
  workers : List (ℕ × WorkerPhase)
  clearArmed : Bool
deriving Repr

/-- The state dict as initialized in `create_ping_button`:
`{"running": False, "job": None, "results": None, "clear_job": None}`. -/
def ProbeMach.init (α : Type) : ProbeMach α :=
  ⟨false, none, 0, [], false⟩

/-- Events of the probe model: a UI-thread click, a worker finishing its
blocking operation (writing `state["results"]` and dropping
`state["running"]`), the same worker's remaining `finally` block
(rescheduling the clear callback), and the 60 s `clear_results` callback
firing. -/
inductive ProbeEvent (α : Type) where
  | click
  | complete (g : ℕ) (r : α)
  | cleanupStep (g : ℕ)
  | clearFire

/-- Small-step semantics of one probe button.  Each constructor is one
atomic region of the Python source between points where another thread or
scheduled callback can interleave. -/
inductive ProbeStep {α : Type} : ProbeMach α → ProbeEvent α → ProbeMach α → Prop where
  | clickBusy (s : ProbeMach α) :
      s.running = true → ProbeStep s .click s
  | clickIdle (s : ProbeMach α) :
      s.running = false →
      ProbeStep s .click
        ⟨true, none, s.gen + 1, (s.gen + 1, .pending) :: s.workers, false⟩
  | complete (s : ProbeMach α) (g : ℕ) (r : α) :
      (g, WorkerPhase.pending) ∈ s.workers →
      ProbeStep s (.complete g r)
        ⟨false, some r, s.gen,
          (g, WorkerPhase.cleanup) :: s.workers.erase (g, WorkerPhase.pending),
          s.clearArmed⟩
  | cleanupStep (s : ProbeMach α) (g : ℕ) :
      (g, WorkerPhase.cleanup) ∈ s.workers →
      ProbeStep s (.cleanupStep g)
        ⟨s.running, s.results, s.gen,
          s.workers.erase (g, WorkerPhase.cleanup), true⟩
  | clearFire (s : ProbeMach α) :
      s.clearArmed = true →
      ProbeStep s .clearFire ⟨s.running, none, s.gen, s.workers, false⟩

/-- States reachable from the freshly created probe button. -/
inductive ProbeReach {α : Type} : ProbeMach α → Prop where
  | init : ProbeReach (ProbeMach.init α)
  | step {s s' : ProbeMach α} {e : ProbeEvent α} :
      ProbeReach s → ProbeStep s e s' → ProbeReach s'

/-- Invariant of the probe machine: worker generations never exceed the
activation counter, a worker that can still write its result belongs to the
current activation (and then the probe is running), and at most one such
worker exists. -/
def ProbeInv {α : Type} (s : ProbeMach α) : Prop :=
  (∀ gp ∈ s.workers, gp.1 ≤ s.gen)
  ∧ (∀ g : ℕ, (g, WorkerPhase.pending) ∈ s.workers →
      s.running = true ∧ g = s.gen)
  ∧ s.workers.count (s.gen, WorkerPhase.pending) ≤ 1

theorem probeInv_init {α : Type} : ProbeInv (ProbeMach.init α) := by
  refine ⟨?_, ?_, ?_⟩ <;> simp [ProbeMach.init]

theorem probeInv_step {α : Type} {s s' : ProbeMach α} {e : ProbeEvent α}
    (hinv : ProbeInv s) (hstep : ProbeStep s e s') : ProbeInv s' := by
  obtain ⟨hbound, hpend, hcount⟩ := hinv
  cases hstep with
  | clickBusy h => exact ⟨hbound, hpend, hcount⟩
  | clickIdle h =>
    refine ⟨?_, ?_, ?_⟩
    · intro gp hgp
      rcases List.mem_cons.mp hgp with hgp | hgp
      · simp [hgp]
      · exact Nat.le_succ_of_le (hbound gp hgp)
    · intro g hg
      rcases List.mem_cons.mp hg with hg | hg
      · injection hg with h1 h2
        exact ⟨rfl, h1⟩
      · rw [h] at hpend
        exact absurd (hpend g hg).1 (by simp)
    · have hnot : (s.gen + 1, WorkerPhase.pending) ∉ s.workers := fun hmem =>
        Nat.not_succ_le_self s.gen (hbound _ hmem)
      simp [List.count_cons, List.count_eq_zero.mpr hnot]
  | complete g r hmem =>
    obtain ⟨hrun, hgen⟩ := hpend g hmem
    have hzero : (s.gen, WorkerPhase.pending) ∉
        s.workers.erase (g, WorkerPhase.pending) := by
      intro h
      have hpos := List.count_pos_iff.mpr h
      rw [← hgen, List.count_erase_self] at hpos
      have := List.count_pos_iff.mpr hmem
      rw [← hgen] at hcount
      omega
    refine ⟨?_, ?_, ?_⟩
    · intro gp hgp
      rcases List.mem_cons.mp hgp with hgp | hgp
      · rw [hgp]
        exact hgen.le
      · exact hbound gp (List.mem_of_mem_erase hgp)
    · intro g' hg'
      rcases List.mem_cons.mp hg' with hg' | hg'
      · injection hg' with h1 h2
        exact absurd h2 (by simp)
      · obtain ⟨-, hg'gen⟩ := hpend g' (List.mem_of_mem_erase hg')
        rw [hg'gen] at hg'
        exact absurd hg' hzero
    · have : (s.gen, WorkerPhase.pending) ∉
          (g, WorkerPhase.cleanup) :: s.workers.erase (g, WorkerPhase.pending) := by
        intro hmem'
        rcases List.mem_cons.mp hmem' with h | h
        · injection h with h1 h2
          exact absurd h2 (by simp)
        · exact hzero h
      simp [List.count_eq_zero.mpr this]
  | cleanupStep g hmem =>
    refine ⟨?_, ?_, ?_⟩
    · intro gp hgp
      exact hbound gp (List.mem_of_mem_erase hgp)
    · intro g' hg'
      exact hpend g' (List.mem_of_mem_erase hg')
    · exact le_trans ((List.erase_sublist ..).count_le _) hcount
  | clearFire h => exact ⟨hbound, hpend, hcount⟩

theorem probeInv_reach {α : Type} {s : ProbeMach α}
    (h : ProbeReach s) : ProbeInv s := by
  induction h with
  | init => exact probeInv_init
  | step _ hstep ih => exact probeInv_step ih hstep

/-- Claim C1: stale-result guard.  In every reachable state of a probe button
(ping or HTTP test), a worker result can only be delivered by the worker of
the current activation: whenever a `complete` event writes a result into the
state, its generation equals the activation counter.  A worker made stale by
a later activation has already delivered before that activation started, so
a stale result can never arrive, let alone overwrite the state or rendering
produced by the newer activation — the guard condition of the claim is
realized by the `state["running"]` mutual exclusion in `start_ping` /
`start_http_test`, which makes a stale delivery unreachable. -/
theorem c1_stale_result_guard {α : Type} {s s' : ProbeMach α}
    {g : ℕ} {r : α} (hreach : ProbeReach s)
    (hstep : ProbeStep s (.complete g r) s') : g = s.gen := by
  obtain ⟨_, hpend, _⟩ := probeInv_reach hreach
  cases hstep with
  | complete g r hmem => exact (hpend g hmem).2

/-- Witness for C1: from the initial state, one click spawns worker 1, and
its delivery is accepted exactly because it is the current activation. -/
theorem c1_stale_result_guard_witness :
    (1 : ℕ) =
      (ProbeMach.mk (α := Bool) true none 1 [(1, WorkerPhase.pending)] false).gen :=
  c1_stale_result_guard
    (α := Bool)
    (ProbeReach.step ProbeReach.init
      (ProbeStep.clickIdle (ProbeMach.init Bool) rfl))
    (ProbeStep.complete _ 1 true (by simp))

/-! ## Output overlay exit-code classification (claim C2)

From src/ui/dialogs/output_overlay.py, `read_output` (the exit-code branch)
and `_finalize_output` (the title marking). -/

/-- Python `s1.startswith-like` helper on character lists: does the first
list start with the second? -/
def listStartsWith : List Char → List Char → Bool
  | _, [] => true
  | [], _ :: _ => false
  | a :: as, b :: bs => a = b && listStartsWith as bs

/-- Python `needle in hay` substring test on character lists. -/
def listHasSub : List Char → List Char → Bool
  | [], needle => listStartsWith [] needle
  | h :: t, needle => listStartsWith (h :: t) needle || listHasSub t needle

/-- Python `needle in hay` on strings. -/
def strHasSub (hay needle : String) : Bool :=
  listHasSub hay.toList needle.toList

/-- Python `hay.replace(needle, "")` on character lists, with fuel (one unit
per consumed character, so `hay.length` fuel always suffices). -/
def listRemoveAllAux (needle : List Char) : ℕ → List Char → List Char
  | 0, l => l
  | _ + 1, [] => []
  | fuel + 1, c :: cs =>
    if needle ≠ [] ∧ listStartsWith (c :: cs) needle then
      listRemoveAllAux needle fuel (List.drop (needle.length - 1) cs)
    else c :: listRemoveAllAux needle fuel cs

/-- Python `hay.replace(needle, "")` on strings (nonempty needle). -/
def strRemoveAll (hay needle : String) : String :=
  ⟨listRemoveAllAux needle.toList hay.toList.length hay.toList⟩

/-- The `error_occurred` flag computed by `read_output` after
`exit_code = self.proc.wait()`:

    if exit_code != 0:
        if self._user_closed: ...            (not an error)
        elif exit_code in [-1, 1, 2, 3, 15]: (not an error)
        else: error_occurred = True
-/
def readOutputErrorOccurred (exitCode : ℤ) (userClosed : Bool) : Bool :=
  if exitCode ≠ 0 then
    if userClosed then false
    else if exitCode ∈ ([-1, 1, 2, 3, 15] : List ℤ) then false
    else true
  else false

/-- The classification claimed by the spec, for comparison: `0` is success;
the listed signal-style codes are user-initiated only WHILE `userClosed` is
set; every other non-zero code is an error. -/
def specExitClassification (exitCode : ℤ) (userClosed : Bool) : Bool :=
  if exitCode = 0 then false
  else if exitCode ∈ ([-1, 1, 2, 3, 15] : List ℤ) ∧ userClosed = true then false
  else true

/-- The window title after `_finalize_output` runs with the given
`error_occurred` argument and `self._error_occurred` flag:
appends " - ERROR" when an error is recorded (unless already present),
otherwise strips any " - ERROR". -/
def titleAfterFinalize (title : String) (errorOccurred errorFlag : Bool) : String :=
  if errorOccurred || errorFlag then
    if strHasSub title " - ERROR" then title else title ++ " - ERROR"
  else
    if strHasSub title " - ERROR" then strRemoveAll title " - ERROR" else title

theorem listStartsWith_append (n l : List Char) :
    listStartsWith (n ++ l) n = true := by
  induction n with
  | nil => cases l <;> rfl
  | cons a as ih => simp [listStartsWith, ih]

theorem listStartsWith_refl (n : List Char) : listStartsWith n n = true := by
  induction n with
  | nil => rfl
  | cons a as ih => simp [listStartsWith, ih]

theorem listHasSub_append (l n : List Char) :
    listHasSub (l ++ n) n = true := by
  induction l with
  | nil =>
    cases n with
    | nil => rfl
    | cons a as => simp [listHasSub, listStartsWith_refl]
  | cons a as ih => simp [listHasSub, ih]

theorem strHasSub_append (t n : String) : strHasSub (t ++ n) n = true := by
  have : (t ++ n).toList = t.toList ++ n.toList := String.data_append ..
  rw [strHasSub, this]
  exact listHasSub_append ..

/-- C2 counterexample: exit code 1 with `userClosed` NOT set.  The claim
classifies it as Errored (1 is excused only "while the userClosed flag is
set"), but `read_output` treats the codes -1, 1, 2, 3, 15 as user-initiated
termination unconditionally, so no error is recorded. -/
theorem c2_counterexample :
    readOutputErrorOccurred 1 false = false
      ∧ specExitClassification 1 false = true := by
  constructor <;> decide

/-- Claim C2 (amended): exit code 0 is success; while `userClosed` is set,
EVERY exit code is treated as user-initiated and not an error; the
signal-style codes -1, 1, 2, 3, 15 are treated as termination and not an
error even when `userClosed` is unset; an error is recorded exactly for the
remaining non-zero codes, and then `_finalize_output` marks the window title
with " - ERROR". -/
theorem c2_exit_classification (exitCode : ℤ) (userClosed : Bool) (title : String) :
    (readOutputErrorOccurred exitCode userClosed = true ↔
      exitCode ≠ 0 ∧ userClosed = false
        ∧ exitCode ∉ ([-1, 1, 2, 3, 15] : List ℤ))
    ∧ (readOutputErrorOccurred exitCode userClosed = true →
        strHasSub
          (titleAfterFinalize title (readOutputErrorOccurred exitCode userClosed) false)
          " - ERROR" = true) := by
  constructor
  · unfold readOutputErrorOccurred
    by_cases h0 : exitCode = 0 <;>
      by_cases hu : userClosed <;>
        by_cases hm : exitCode ∈ ([-1, 1, 2, 3, 15] : List ℤ) <;>
          simp_all
  · intro herr
    rw [herr]
    unfold titleAfterFinalize
    by_cases hsub : strHasSub title " - ERROR" = true
    · simp [hsub]
    · simp only [Bool.true_or, if_true, Bool.not_eq_true] at hsub ⊢
      rw [hsub, if_neg (by simp)]
      exact strHasSub_append ..

/-- Witness for C2 (amended) at exit code 5, `userClosed` unset: the code
records an error and the finalized title carries the ERROR mark. -/
theorem c2_exit_classification_witness :
    ((5 : ℤ) ≠ 0 ∧ false = false ∧ (5 : ℤ) ∉ ([-1, 1, 2, 3, 15] : List ℤ))
      ∧ strHasSub
          (titleAfterFinalize "Script Output" (readOutputErrorOccurred 5 false) false)
          " - ERROR" = true := by
  constructor
  · exact (c2_exit_classification 5 false "Script Output").1.mp (by decide)
  · exact (c2_exit_classification 5 false "Script Output").2 (by decide)

/-! ## Legacy OutputOverlay: interactive-prompt heuristic (claim C3)

From quickbuttons.py, class `OutputOverlay`: `read_output` appends each
line of the process output and, when `line.strip().endswith((\':\', \'?\'))`,
sets `waiting_for_input` and packs the input entry; `send_input` writes
`value + newline` to the process stdin when `self.proc and
self.waiting_for_input`, then hides the entry and clears the flag. -/

/-- The ASCII whitespace stripped by Python `str.strip()` on the process
output lines of interest. -/
def isPyWhitespace (c : Char) : Bool :=
  c = ' ' || c = '\t' || c = '\n' || c = '\r'

/-- Python `line.strip()`: drop leading and trailing whitespace. -/
def pyStrip (s : String) : String :=
  ⟨((s.toList.dropWhile isPyWhitespace).reverse.dropWhile isPyWhitespace).reverse⟩

/-- Python `s.endswith(c)` for a single-character suffix. -/
def endsWithChar (s : String) (c : Char) : Bool :=
  match s.toList.getLast? with
  | some d => d = c
  | none => false

/-- The prompt heuristic `line.strip().endswith((\':\', \'?\'))`. -/
def promptDetected (line : String) : Bool :=
  endsWithChar (pyStrip line) ':' || endsWithChar (pyStrip line) '?' 

/-- Observable state of the legacy output overlay: rendered lines, the
`waiting_for_input` flag, whether the input entry is packed, the data
written to the process stdin, and whether `self.proc` is set. -/
structure OverlayState where
  textLines : List String
  waitingForInput : Bool
  inputVisible : Bool
  stdinWrites : List String
  procSpawned : Bool
deriving DecidableEq, Repr

/-- One iteration of the `read_output` loop body of the legacy
`OutputOverlay`: insert the line into the text widget; if the prompt
heuristic fires, set `waiting_for_input` and pack the input entry. -/
def readOutputLine (s : OverlayState) (line : String) : OverlayState :=
  let s1 : OverlayState := { s with textLines := s.textLines ++ [line] }
  if promptDetected line then
    { s1 with waitingForInput := true, inputVisible := true }
  else s1

/-- `send_input` of the legacy `OutputOverlay`: guarded by
`if self.proc and self.waiting_for_input`, writes `value + newline` to
stdin, clears the entry, hides it and drops the flag. -/
def sendInput (s : OverlayState) (value : String) : OverlayState :=
  if s.procSpawned ∧ s.waitingForInput then
    { s with stdinWrites := s.stdinWrites ++ [value ++ "\n"],
             inputVisible := false, waitingForInput := false }
  else s

/-- Claim C3: while the session is running, appending an output line whose
stripped text ends with a colon or question mark transitions the overlay to
awaiting-input and surfaces the input affordance; accepting input then
writes the entered value followed by a newline to the process stdin and
returns the session to running (the flag drops back). -/
theorem c3_prompt_heuristic (s : OverlayState) (line value : String)
    (hprompt : promptDetected line = true) :
    ((readOutputLine s line).waitingForInput = true
      ∧ (readOutputLine s line).inputVisible = true
      ∧ (readOutputLine s line).textLines = s.textLines ++ [line])
    ∧ (s.procSpawned = true →
        (sendInput (readOutputLine s line) value).stdinWrites
            = s.stdinWrites ++ [value ++ "\n"]
          ∧ (sendInput (readOutputLine s line) value).waitingForInput = false
          ∧ (sendInput (readOutputLine s line) value).inputVisible = false) := by
  constructor
  · simp [readOutputLine, hprompt]
  · intro hproc
    simp [readOutputLine, sendInput, hprompt, hproc]

/-- Witness for C3: the line "Enter your name:" triggers the prompt
heuristic on a live overlay, and the reply "Alice" reaches stdin with a
trailing newline. -/
theorem c3_prompt_heuristic_witness :
    promptDetected "Enter your name:" = true
    ∧ (sendInput
        (readOutputLine (OverlayState.mk [] false false [] true) "Enter your name:")
        "Alice").stdinWrites = [] ++ ["Alice" ++ "\n"] := by
  refine ⟨by decide, ?_⟩
  exact ((c3_prompt_heuristic (OverlayState.mk [] false false [] true)
    "Enter your name:" "Alice" (by decide)).2 rfl).1

/-! ## Action dispatcher error boundary (claim C5)

From src/core/button_types/button_handler_factory.py `execute_button`
(logs and re-raises a handler exception) and
src/core/managers/button_manager.py `run_script` (catches every
`Exception`, logs it and reports it via one error message box).  A raised
Python exception at `Exception` level is embedded as `Except.error` with
its message; the handler body `handler.execute(cfg)` is an arbitrary
outcome of that type. -/

/-- Result of one dispatch as observed by the UI thread: the log lines and
the single reported (message-box) failure, if any. -/
structure DispatchResult where
  logs : List String
  reported : Option String
deriving DecidableEq, Repr

/-- `ButtonHandlerFactory.execute_button` around `handler.execute(cfg)`:
on an exception it logs `"Error executing button ..."` and RE-RAISES.
Returns the produced log lines and the re-raised exception, if any. -/
def executeButton (handlerOutcome : Except String Unit) (label : String) :
    List String × Option String :=
  match handlerOutcome with
  | .ok _ => ([], none)
  | .error e => (["Error executing button " ++ label ++ ": " ++ e], some e)

/-- `ButtonManager.run_script`: wraps `execute_button` in
`try ... except Exception`, logging the failure and reporting it with one
`messagebox.showerror`.  The `Except` result type records whether anything
still propagates out of `run_script` into the UI callback queue. -/
def runScript (handlerOutcome : Except String Unit) (label : String) :
    Except String DispatchResult :=
  match executeButton handlerOutcome label with
  | (logs, none) => .ok ⟨logs, none⟩
  | (logs, some e) =>
      .ok ⟨logs ++ ["Failed to execute button " ++ label ++ ": " ++ e],
           some ("Failed to execute button: " ++ e)⟩

/-- Claim C5: any exception raised by a handler execute is caught at the
dispatcher boundary, logged (by the factory, which re-raises, and by
`run_script`, which stops it) and surfaced as one reported non-fatal error;
dispatching never lets the UI callback queue raise. -/
theorem c5_dispatcher_boundary (handlerOutcome : Except String Unit)
    (label : String) :
    (runScript handlerOutcome label).isOk = true
    ∧ ∀ e, handlerOutcome = .error e →
        (executeButton handlerOutcome label).2 = some e
        ∧ runScript handlerOutcome label =
            .ok ⟨["Error executing button " ++ label ++ ": " ++ e,
                  "Failed to execute button " ++ label ++ ": " ++ e],
                 some ("Failed to execute button: " ++ e)⟩ := by
  constructor
  · cases handlerOutcome <;> simp [runScript, executeButton, Except.isOk, Except.toBool]
  · intro e he
    subst he
    exact ⟨rfl, rfl⟩

/-- Witness for C5: a handler raising "boom" is logged twice and reported
once; nothing propagates. -/
theorem c5_dispatcher_boundary_witness :
    (executeButton (.error "boom") "Test").2 = some "boom"
    ∧ runScript (.error "boom") "Test" =
        .ok ⟨["Error executing button Test: boom",
              "Failed to execute button Test: boom"],
             some ("Failed to execute button: boom")⟩ := by
  have h := (c5_dispatcher_boundary (.error "boom") "Test").2 "boom" rfl
  exact ⟨h.1, by rw [h.2]; rfl⟩

/-! ## Pomodoro state machine (claims C4, C7, C8)

From src/core/button_types/pomodoro_handler.py, `create_pomodoro_button`.
The tkinter scheduler is explicit: `btn.after(delay, cb)` appends a fresh
`(handle, callback)` pair to the pending queue and returns the handle;
`btn.after_cancel(handle)` removes it; firing a due callback removes its
queue entry and runs the corresponding closure.  Durations configured in
minutes are converted to seconds with `* 60` exactly as in the source. -/

/-- The configuration read at the top of `create_pomodoro_button`
(durations in minutes, as configured). -/
structure PomodoroConfig where
  workDurationMin : ℕ
  shortBreakMin : ℕ
  longBreakMin : ℕ
  sessionsBeforeLongBreak : ℕ
  autoAdvance : Bool
deriving DecidableEq, Repr

/-- `work_duration = cfg.get("work_duration", 25) * 60` (seconds). -/
def PomodoroConfig.workDuration (c : PomodoroConfig) : ℕ := c.workDurationMin * 60

/-- `short_break_duration` in seconds. -/
def PomodoroConfig.shortBreakDuration (c : PomodoroConfig) : ℕ := c.shortBreakMin * 60

/-- `long_break_duration` in seconds. -/
def PomodoroConfig.longBreakDuration (c : PomodoroConfig) : ℕ := c.longBreakMin * 60

/-- `state["phase"]`: ready, work, short_break, long_break, complete. -/
inductive PomPhase where
  | ready
  | work
  | shortBreak
  | longBreak
  | complete
deriving DecidableEq, Repr

/-- The three closures the pomodoro button hands to `btn.after`:
the 1 s `tick`, the 60 s `clear_complete_message`, and the 3 s
auto-advance `advance_phase`. -/
inductive PomCallback where
  | tickCb
  | clearCb
  | advanceCb
deriving DecidableEq, Repr

/-- The pomodoro `state` dict plus the explicit scheduler queue:
pending `(handle, callback)` pairs and the next fresh handle. -/
structure PomState where
  running : Bool
  paused : Bool
  job : Option ℕ
  clearJob : Option ℕ
  phase : PomPhase
  remaining : ℕ
  sessionsCompleted : ℕ
  currentSession : ℕ
  queue : List (ℕ × PomCallback)
  nextHandle : ℕ
deriving DecidableEq, Repr

/-- The state dict as initialized in `create_pomodoro_button`. -/
def pomInit (cfg : PomodoroConfig) : PomState :=
  ⟨false, false, none, none, .ready, cfg.workDuration, 0, 1, [], 0⟩

/-- `btn.after(delay, cb)`: enqueue the callback under a fresh handle and
return the handle. -/
def btnAfter (s : PomState) (k : PomCallback) : PomState × ℕ :=
  ({ s with queue := s.queue ++ [(s.nextHandle, k)],
            nextHandle := s.nextHandle + 1 },
   s.nextHandle)

/-- `btn.after_cancel(handle)`: drop the pending callback with this handle
(harmless when it already fired). -/
def btnAfterCancel (s : PomState) (h : ℕ) : PomState :=
  { s with queue := s.queue.filter (fun hk => hk.1 ≠ h) }

/-- `tick()` of `create_pomodoro_button`: return when not running or
paused; decrement and reschedule itself while time remains; otherwise mark
the phase complete, (re)schedule the 60 s clear callback, and — when
`auto_advance` — schedule `advance_phase` in 3 s WITHOUT keeping its
handle. -/
def tick (cfg : PomodoroConfig) (s : PomState) : PomState :=
  if ¬ s.running ∨ s.paused then s
  else if s.remaining > 0 then
    let s1 := { s with remaining := s.remaining - 1 }
    let sh := btnAfter s1 .tickCb
    { sh.1 with job := some sh.2 }
  else
    let s1 := { s with running := false, phase := .complete }
    let s2 := match s1.clearJob with
      | some h => btnAfterCancel s1 h
      | none => s1
    let sh := btnAfter s2 .clearCb
    let s3 := { sh.1 with clearJob := some sh.2 }
    if cfg.autoAdvance then (btnAfter s3 .advanceCb).1 else s3

/-- `advance_phase()`, phase-switch part: work counts one more completed
session and enters a long break when
`sessions_completed % sessions_before_long_break == 0`, otherwise a short
break; a break returns to work.  (For `sessions_before_long_break = 0` the
Python source would raise `ZeroDivisionError`; claims about the schedule
therefore assume it positive.) -/
def advanceStage (cfg : PomodoroConfig) (s : PomState) : PomState :=
  if s.phase = .work then
    if (s.sessionsCompleted + 1) % cfg.sessionsBeforeLongBreak = 0 then
      { s with sessionsCompleted := s.sessionsCompleted + 1, phase := .longBreak,
               remaining := cfg.longBreakDuration }
    else
      { s with sessionsCompleted := s.sessionsCompleted + 1, phase := .shortBreak,
               remaining := cfg.shortBreakDuration }
  else if s.phase = .shortBreak ∨ s.phase = .longBreak then
    { s with phase := .work, remaining := cfg.workDuration,
             currentSession := s.sessionsCompleted + 1 }
  else s

/-- `advance_phase()` continued: after the phase switch, set running
unpaused and tick. -/
def advancePhase (cfg : PomodoroConfig) (s : PomState) : PomState :=
  tick cfg { advanceStage cfg s with running := true, paused := false }

/-- `clear_complete_message()`: return to the ready phase with the work
duration restored (it does not touch `state["clear_job"]`). -/
def clearCompleteMessage (cfg : PomodoroConfig) (s : PomState) : PomState :=
  { s with phase := .ready, remaining := cfg.workDuration }

/-- `start_pomodoro()`, phase/pause-switch part: from ready start the first
work session; otherwise toggle pause/resume. -/
def startStage (cfg : PomodoroConfig) (s : PomState) : PomState :=
  if s.phase = .ready then
    { s with phase := .work, remaining := cfg.workDuration,
             running := true, paused := false, currentSession := 1 }
  else if s.paused then { s with paused := false }
  else { s with paused := true }

/-- `start_pomodoro()` continued: tick when the updated state is running
unpaused. -/
def startPomodoro (cfg : PomodoroConfig) (s : PomState) : PomState :=
  if (startStage cfg s).running ∧ ¬ (startStage cfg s).paused then
    tick cfg (startStage cfg s)
  else startStage cfg s

/-- `skip_phase()`: when running, cancel the held tick handle and advance
immediately. -/
def skipPhase (cfg : PomodoroConfig) (s : PomState) : PomState :=
  if s.running then
    let s1 := match s.job with
      | some h => { btnAfterCancel s h with job := none }
      | none => s
    advancePhase cfg s1
  else s

/-- `reset_pomodoro()`: cancel the held tick and clear handles and restore
the initial fields. -/
def resetPomodoro (cfg : PomodoroConfig) (s : PomState) : PomState :=
  let s1 := match s.job with
    | some h => { btnAfterCancel s h with job := none }
    | none => s
  let s2 := match s1.clearJob with
    | some h => { btnAfterCancel s1 h with clearJob := none }
    | none => s1
  { s2 with running := false, paused := false, phase := .ready,
            remaining := cfg.workDuration, sessionsCompleted := 0,
            currentSession := 1 }

/-- The toolkit fires the pending callback with handle `h` (if still
pending): remove it from the queue and run its closure. -/
def fireScheduled (cfg : PomodoroConfig) (s : PomState) (h : ℕ) : PomState :=
  match s.queue.find? (fun hk => hk.1 == h) with
  | some hk =>
    let s1 := btnAfterCancel s h
    match hk.2 with
    | .tickCb => tick cfg s1
    | .clearCb => clearCompleteMessage cfg s1
    | .advanceCb => advancePhase cfg s1
  | none => s

/-- UI events bound on the pomodoro button (`<Button-1>` start/pause,
`<Button-3>` skip — additionally bound to the edit dialog, which does not
touch this state —, `<Double-Button-1>` reset), plus the toolkit firing a
due scheduled callback. -/
inductive PomAction where
  | click
  | rightClick
  | doubleClick
  | fire (h : ℕ)
deriving DecidableEq, Repr

/-- Dispatch one pomodoro event. -/
def pomHandleAction (cfg : PomodoroConfig) (s : PomState) : PomAction → PomState
  | .click => startPomodoro cfg s
  | .rightClick => skipPhase cfg s
  | .doubleClick => resetPomodoro cfg s
  | .fire h => fireScheduled cfg s h

/-- Run an event trace on a freshly created pomodoro button. -/
def pomRun (cfg : PomodoroConfig) (acts : List PomAction) : PomState :=
  acts.foldl (pomHandleAction cfg) (pomInit cfg)

/-! ## Plain timer (claim C7) — src/core/managers/timer_manager.py -/

/-- The timer `state` dict of `create_timer_button` plus the explicit
scheduler queue of pending tick handles. -/
structure TimerState where
  running : Bool
  paused : Bool
  remaining : ℕ
  job : Option ℕ
  queue : List ℕ
  nextHandle : ℕ
deriving DecidableEq, Repr

/-- `state = {"running": False, "paused": False, "remaining": total_seconds,
"job": None, ...}`. -/
def timerInit (totalSeconds : ℕ) : TimerState :=
  ⟨false, false, totalSeconds, none, [], 0⟩

/-- `tick()` of `create_timer_button`: return when not running or paused;
decrement and reschedule while time remains; else stop (and play the
completion sound, an external effect). -/
def timerTick (s : TimerState) : TimerState :=
  if ¬ s.running ∨ s.paused then s
  else if s.remaining > 0 then
    { s with remaining := s.remaining - 1, job := some s.nextHandle,
             queue := s.queue ++ [s.nextHandle], nextHandle := s.nextHandle + 1 }
  else
    { s with running := false }

/-- cancel of the held timer tick handle (`btn.after_cancel(state["job"])`). -/
def timerCancelJob (s : TimerState) : TimerState :=
  match s.job with
  | some h => { s with queue := s.queue.filter (fun x => x ≠ h), job := none }
  | none => s

/-- `start_timer()`. -/
def startTimer (total : ℕ) (s : TimerState) : TimerState :=
  if s.running then s
  else timerTick { s with running := true, paused := false, remaining := total }

/-- `pause_resume_timer()`. -/
def pauseResumeTimer (total : ℕ) (s : TimerState) : TimerState :=
  if ¬ s.running then startTimer total s
  else if ¬ s.paused then timerCancelJob { s with paused := true }
  else timerTick { s with paused := false }

/-- `stop_timer()`. -/
def stopTimer (total : ℕ) (s : TimerState) : TimerState :=
  timerCancelJob { s with running := false, paused := false, remaining := total }

/-- `<Button-1>` on the timer button runs `pause_resume_timer()`. -/
def timerPrimaryClick (total : ℕ) (s : TimerState) : TimerState :=
  pauseResumeTimer total s

/-- `<Double-Button-1>` on the timer button runs `stop_timer()`. -/
def timerDoubleClick (total : ℕ) (s : TimerState) : TimerState :=
  stopTimer total s

/-- `<Button-3>` on the timer button is bound to `self.app.edit_button(i)`
(opening the edit dialog): it does not touch the timer state machine at
all — there is no skip transition for the plain timer. -/
def timerSecondaryClick (s : TimerState) : TimerState := s

/-! ### Claim C4: callback-cancellation discipline -/

theorem advanceStage_queue (cfg : PomodoroConfig) (s : PomState) :
    (advanceStage cfg s).queue = s.queue
      ∧ (advanceStage cfg s).nextHandle = s.nextHandle := by
  unfold advanceStage
  split
  · split <;> exact ⟨rfl, rfl⟩
  · split <;> exact ⟨rfl, rfl⟩

theorem tick_queue_mem (cfg : PomodoroConfig) (s : PomState) :
    ∀ p ∈ (tick cfg s).queue, p ∈ s.queue ∨ s.nextHandle ≤ p.1 := by
  intro p hp
  unfold tick at hp
  split at hp
  · exact Or.inl hp
  · split at hp
    · simp only [btnAfter, List.mem_append, List.mem_singleton] at hp
      rcases hp with hp | hp
      · exact Or.inl hp
      · right
        rw [hp]
    · rcases hcj : s.clearJob with _ | hc <;>
        by_cases ha : cfg.autoAdvance = true <;>
          simp [btnAfter, btnAfterCancel, hcj, ha] at hp
      · rcases hp with hp | hp | hp
        exacts [Or.inl hp, Or.inr (by rw [hp]),
          Or.inr (by rw [hp]; exact Nat.le_succ _)]
      · rcases hp with hp | hp
        exacts [Or.inl hp, Or.inr (by rw [hp])]
      · rcases hp with ⟨hp, -⟩ | hp | hp
        exacts [Or.inl hp, Or.inr (by rw [hp]),
          Or.inr (by rw [hp]; exact Nat.le_succ _)]
      · rcases hp with ⟨hp, -⟩ | hp
        exacts [Or.inl hp, Or.inr (by rw [hp])]

theorem advancePhase_queue_mem (cfg : PomodoroConfig) (s : PomState) :
    ∀ p ∈ (advancePhase cfg s).queue, p ∈ s.queue ∨ s.nextHandle ≤ p.1 := by
  intro p hp
  unfold advancePhase at hp
  have h := tick_queue_mem cfg _ p hp
  rcases advanceStage_queue cfg s with ⟨hq, hn⟩
  simpa [hq, hn] using h

/-- Configuration of the C4 counterexample run: 1-minute phases, long break
every 4 sessions, `auto_advance` on. -/
def pomCfgCE : PomodoroConfig := ⟨1, 1, 1, 4, true⟩

/-- C4 counterexample trace: start the pomodoro, let the 60 work seconds
tick down (handles 0–59), complete the work phase — which schedules the
clear callback (handle 60) and the auto-advance callback (handle 61, NOT
retained in the state) — then double-click (a primary click followed by the
reset). -/
def pomTraceCE : List PomAction :=
  PomAction.click ::
    ((List.range 60).map PomAction.fire
      ++ [PomAction.click, PomAction.doubleClick])

set_option maxRecDepth 8000

/-- C4 counterexample: the auto-advance callback (handle 61) was scheduled
by `tick` while the machine entered the complete phase, but its handle is
never stored, so the reset (which returns the machine to ready and cancels
the held tick and clear handles) leaves it pending; when it later fires it
mutates the reset machine — `running` becomes true in the ready phase.  So
not every callback scheduled in an earlier phase is canceled before the
machine transitions away from that phase. -/
theorem c4_counterexample :
    ((pomRun pomCfgCE pomTraceCE).phase = PomPhase.ready
      ∧ (pomRun pomCfgCE pomTraceCE).running = false
      ∧ (61, PomCallback.advanceCb) ∈ (pomRun pomCfgCE pomTraceCE).queue)
    ∧ (pomRun pomCfgCE (pomTraceCE ++ [PomAction.fire 61])).running = true
    ∧ (pomRun pomCfgCE (pomTraceCE ++ [PomAction.fire 61])).phase
        = PomPhase.ready := by
  exact ⟨⟨rfl, rfl, by decide⟩, rfl, rfl⟩

/-- Claim C4 (amended): the pomodoro machine cancels the callback handles it
HOLDS before the transitions that invalidate them — the reset cancels the
held tick and clear handles (nothing with those handles stays queued), and a
skip cancels the held tick handle before advancing — but the auto-advance
callback scheduled on phase completion is never retained or canceled and the
clear callback is not canceled when auto-advance leaves the complete phase,
so those callbacks can fire in a later phase and mutate the machine (see the
counterexample trace). -/
theorem c4_cancellation_discipline (cfg : PomodoroConfig) (s : PomState) :
    ((resetPomodoro cfg s).job = none
      ∧ (resetPomodoro cfg s).clearJob = none
      ∧ (∀ h, s.job = some h → ∀ p ∈ (resetPomodoro cfg s).queue, p.1 ≠ h)
      ∧ (∀ h, s.clearJob = some h → ∀ p ∈ (resetPomodoro cfg s).queue, p.1 ≠ h))
    ∧ (∀ h, s.running = true → s.job = some h → h < s.nextHandle →
        ∀ p ∈ (skipPhase cfg s).queue, p.1 ≠ h) := by
  constructor
  · refine ⟨?_, ?_, ?_, ?_⟩
    · rcases hj : s.job with _ | hjob <;> rcases hc : s.clearJob with _ | hclear <;>
        simp [resetPomodoro, btnAfterCancel, hj, hc]
    · rcases hj : s.job with _ | hjob <;> rcases hc : s.clearJob with _ | hclear <;>
        simp [resetPomodoro, btnAfterCancel, hj, hc]
    · intro h hjh p hp
      rcases hc : s.clearJob with _ | hclear <;>
        simp [resetPomodoro, btnAfterCancel, hjh, hc] at hp <;> tauto
    · intro h hch p hp
      rcases hj : s.job with _ | hjob <;>
        simp [resetPomodoro, btnAfterCancel, hj, hch] at hp <;> tauto
  · intro h hrun hjob hlt p hp
    rw [skipPhase, if_pos hrun, hjob] at hp
    have hmem := advancePhase_queue_mem cfg _ p hp
    simp only [btnAfterCancel, List.mem_filter, decide_eq_true_eq] at hmem
    rcases hmem with ⟨_, hne⟩ | hge
    · exact hne
    · omega

/-- Witness state for C4 (amended): a running work phase holding tick
handle 3 and clear handle 5, with an unrelated pending callback 7. -/
def pomStateW : PomState :=
  ⟨true, false, some 3, some 5, .work, 10, 0, 1,
    [(3, .tickCb), (5, .clearCb), (7, .advanceCb)], 8⟩

/-- Witness for C4 (amended): on the concrete state `pomStateW`, reset
clears both held handles and the surviving queue entry is not one of them,
and after a skip the rescheduled tick is not the canceled handle 3. -/
theorem c4_cancellation_discipline_witness :
    (resetPomodoro pomCfgCE pomStateW).job = none
    ∧ (resetPomodoro pomCfgCE pomStateW).clearJob = none
    ∧ ((7 : ℕ), PomCallback.advanceCb).1 ≠ 3
    ∧ ((8 : ℕ), PomCallback.tickCb).1 ≠ 3 := by
  refine ⟨(c4_cancellation_discipline pomCfgCE pomStateW).1.1,
          (c4_cancellation_discipline pomCfgCE pomStateW).1.2.1,
          (c4_cancellation_discipline pomCfgCE pomStateW).1.2.2.1 3 rfl
            (7, PomCallback.advanceCb) (by decide),
          (c4_cancellation_discipline pomCfgCE pomStateW).2 3 rfl rfl (by decide)
            (8, PomCallback.tickCb) (by decide)⟩

/-! ### Claim C8: long-break schedule -/

theorem tick_active (cfg : PomodoroConfig) (s : PomState)
    (hr : s.running = true) (hp : s.paused = false) (hrem : 0 < s.remaining) :
    tick cfg s =
      { s with remaining := s.remaining - 1,
               queue := s.queue ++ [(s.nextHandle, .tickCb)],
               job := some s.nextHandle,
               nextHandle := s.nextHandle + 1 } := by
  unfold tick btnAfter
  rw [if_neg (by simp [hr, hp]), if_pos hrem]

theorem advancePhase_from_work (cfg : PomodoroConfig) (s : PomState)
    (hphase : s.phase = PomPhase.work)
    (hsb : 0 < cfg.shortBreakMin) (hlb : 0 < cfg.longBreakMin) :
    (advancePhase cfg s).phase =
        (if (s.sessionsCompleted + 1) % cfg.sessionsBeforeLongBreak = 0
          then PomPhase.longBreak else PomPhase.shortBreak)
      ∧ (advancePhase cfg s).sessionsCompleted = s.sessionsCompleted + 1
      ∧ (advancePhase cfg s).running = true
      ∧ (advancePhase cfg s).paused = false := by
  unfold advancePhase advanceStage
  rw [if_pos hphase]
  by_cases hmod : (s.sessionsCompleted + 1) % cfg.sessionsBeforeLongBreak = 0
  · rw [if_pos hmod]
    rw [tick_active cfg _ rfl rfl
      (Nat.mul_pos hlb (by decide) : 0 < cfg.longBreakDuration)]
    simp [hmod]
  · rw [if_neg hmod]
    rw [tick_active cfg _ rfl rfl
      (Nat.mul_pos hsb (by decide) : 0 < cfg.shortBreakDuration)]
    simp [hmod]

theorem advancePhase_from_break (cfg : PomodoroConfig) (s : PomState)
    (hphase : s.phase = PomPhase.shortBreak ∨ s.phase = PomPhase.longBreak)
    (hw : 0 < cfg.workDurationMin) :
    (advancePhase cfg s).phase = PomPhase.work
      ∧ (advancePhase cfg s).sessionsCompleted = s.sessionsCompleted
      ∧ (advancePhase cfg s).running = true
      ∧ (advancePhase cfg s).paused = false := by
  unfold advancePhase advanceStage
  have hnw : ¬ s.phase = PomPhase.work := by
    rcases hphase with h | h <;> simp [h]
  rw [if_neg hnw, if_pos hphase]
  rw [tick_active cfg _ rfl rfl
    (Nat.mul_pos hw (by decide) : 0 < cfg.workDuration)]
  simp

/-- The state at the start of the (m+1)-th consecutive work phase of a run:
the initial click, then m completed work/break cycles (each work completion
is one `advance_phase` into the break and one back to work, as performed by
the tick completion plus auto-advance, or by skips). -/
def workStateAfter (cfg : PomodoroConfig) : ℕ → PomState
  | 0 => startPomodoro cfg (pomInit cfg)
  | m + 1 => advancePhase cfg (advancePhase cfg (workStateAfter cfg m))

/-- The state of the break entered after the n-th completed consecutive
work phase (n ≥ 1). -/
def nthBreakState (cfg : PomodoroConfig) (n : ℕ) : PomState :=
  advancePhase cfg (workStateAfter cfg (n - 1))

theorem workStateAfter_props (cfg : PomodoroConfig)
    (hw : 0 < cfg.workDurationMin) (hsb : 0 < cfg.shortBreakMin)
    (hlb : 0 < cfg.longBreakMin) (m : ℕ) :
    (workStateAfter cfg m).phase = PomPhase.work
      ∧ (workStateAfter cfg m).sessionsCompleted = m
      ∧ (workStateAfter cfg m).running = true
      ∧ (workStateAfter cfg m).paused = false := by
  induction m with
  | zero =>
    unfold workStateAfter
    have hstage : startStage cfg (pomInit cfg) =
        ⟨true, false, none, none, .work, cfg.workDuration, 0, 1, [], 0⟩ := rfl
    unfold startPomodoro
    rw [hstage]
    rw [if_pos (by exact ⟨rfl, by simp⟩)]
    rw [tick_active cfg _ rfl rfl (Nat.mul_pos hw (by decide))]
    exact ⟨rfl, rfl, rfl, rfl⟩
  | succ m ih =>
    obtain ⟨ihphase, ihsc, ihrun, ihpause⟩ := ih
    have h1 := advancePhase_from_work cfg (workStateAfter cfg m) ihphase hsb hlb
    have hbreak : (advancePhase cfg (workStateAfter cfg m)).phase
        = PomPhase.shortBreak ∨ (advancePhase cfg (workStateAfter cfg m)).phase
        = PomPhase.longBreak := by
      rw [h1.1]
      split
      · exact Or.inr rfl
      · exact Or.inl rfl
    have h2 := advancePhase_from_break cfg _ hbreak hw
    refine ⟨h2.1, ?_, h2.2.2.1, h2.2.2.2⟩
    show (advancePhase cfg (advancePhase cfg (workStateAfter cfg m))).sessionsCompleted
        = m + 1
    rw [h2.2.1, h1.2.1, ihsc]

/-- Claim C8: in a pomodoro run with positive configured durations and a
positive `sessions_before_long_break` (Python raises `ZeroDivisionError`
otherwise), the break entered after the n-th completed consecutive work
phase is the long break exactly when `sessions_before_long_break` divides n
— i.e. for every N ≥ 1 the (N·sessionsBeforeLongBreak)-th work completion
is followed by LongBreak and every other one by ShortBreak. -/
theorem c8_long_break_schedule (cfg : PomodoroConfig)
    (hw : 0 < cfg.workDurationMin) (hsb : 0 < cfg.shortBreakMin)
    (hlb : 0 < cfg.longBreakMin) (_hq : 0 < cfg.sessionsBeforeLongBreak)
    (n : ℕ) (hn : 1 ≤ n) :
    (nthBreakState cfg n).phase =
      if cfg.sessionsBeforeLongBreak ∣ n
        then PomPhase.longBreak else PomPhase.shortBreak := by
  obtain ⟨hphase, hsc, -, -⟩ := workStateAfter_props cfg hw hsb hlb (n - 1)
  unfold nthBreakState
  rw [(advancePhase_from_work cfg _ hphase hsb hlb).1, hsc,
    Nat.sub_add_cancel hn]
  exact if_congr Nat.dvd_iff_mod_eq_zero.symm rfl rfl

/-- Standard four-session configuration with 1-minute phases. -/
def pomCfgFour : PomodoroConfig := ⟨1, 1, 1, 4, true⟩

/-- Witness for C8: with `sessions_before_long_break = 4`, the break after
the 4th work completion is the long break, the one after the 3rd is short. -/
theorem c8_long_break_schedule_witness :
    (nthBreakState pomCfgFour 4).phase = PomPhase.longBreak
    ∧ (nthBreakState pomCfgFour 3).phase = PomPhase.shortBreak := by
  constructor
  · rw [c8_long_break_schedule pomCfgFour (by decide) (by decide) (by decide)
      (by decide) 4 (by decide)]
    norm_num [pomCfgFour]
  · rw [c8_long_break_schedule pomCfgFour (by decide) (by decide) (by decide)
      (by decide) 3 (by decide)]
    norm_num [pomCfgFour]

/-! ### Claim C7: gesture-to-transition mapping of the two timer types -/

theorem tick_paused (cfg : PomodoroConfig) (s : PomState) :
    (tick cfg s).paused = s.paused := by
  unfold tick
  split
  · rfl
  · split
    · rfl
    · rcases hcj : s.clearJob with _ | hc <;>
        by_cases ha : cfg.autoAdvance = true <;>
          simp [btnAfter, btnAfterCancel, hcj, ha]

/-- C7 counterexample: a primary click starts the plain timer (running,
one second already ticked); the secondary click — bound to the edit dialog,
not to any skip — leaves the running state machine entirely unchanged, so
it does not cancel the pending tick or advance the timer to its next phase
as the claim requires for BOTH timer types. -/
theorem c7_counterexample :
    timerSecondaryClick (timerPrimaryClick 60 (timerInit 60))
        = timerPrimaryClick 60 (timerInit 60)
      ∧ (timerPrimaryClick 60 (timerInit 60)).running = true
      ∧ (timerPrimaryClick 60 (timerInit 60)).remaining = 59
      ∧ (timerPrimaryClick 60 (timerInit 60)).job = some 0 := by
  exact ⟨rfl, rfl, rfl, rfl⟩

/-- Claim C7 (amended): for both timer types a primary click toggles
start/pause/resume and a double-click resets to the idle state canceling
the held callbacks; the secondary-click skip — canceling the pending tick
and advancing immediately — exists only on the pomodoro (where that
gesture additionally opens the edit dialog); the plain timer's secondary
click opens the edit dialog and leaves the timer state machine unchanged. -/
theorem c7_gesture_bindings (total : ℕ) (cfg : PomodoroConfig)
    (s : TimerState) (q : PomState) :
    (timerSecondaryClick s = s)
    ∧ (s.running = false → 0 < total →
        (timerPrimaryClick total s).running = true
          ∧ (timerPrimaryClick total s).paused = false
          ∧ (timerPrimaryClick total s).remaining = total - 1)
    ∧ (s.running = true → s.paused = false →
        (timerPrimaryClick total s).paused = true
          ∧ (timerPrimaryClick total s).job = none)
    ∧ (s.running = true → s.paused = true →
        (timerPrimaryClick total s).paused = false)
    ∧ ((timerDoubleClick total s).running = false
        ∧ (timerDoubleClick total s).paused = false
        ∧ (timerDoubleClick total s).remaining = total
        ∧ (timerDoubleClick total s).job = none)
    ∧ (q.phase = PomPhase.ready → 0 < cfg.workDurationMin →
        (startPomodoro cfg q).phase = PomPhase.work
          ∧ (startPomodoro cfg q).running = true)
    ∧ (q.phase ≠ PomPhase.ready → q.paused = true →
        (startPomodoro cfg q).paused = false)
    ∧ (q.phase ≠ PomPhase.ready → q.paused = false →
        (startPomodoro cfg q).paused = true)
    ∧ (q.running = true → q.phase = PomPhase.work →
        0 < cfg.shortBreakMin → 0 < cfg.longBreakMin →
        (skipPhase cfg q).sessionsCompleted = q.sessionsCompleted + 1
          ∧ ((skipPhase cfg q).phase = PomPhase.longBreak
              ∨ (skipPhase cfg q).phase = PomPhase.shortBreak))
    ∧ ((resetPomodoro cfg q).phase = PomPhase.ready
        ∧ (resetPomodoro cfg q).running = false
        ∧ (resetPomodoro cfg q).job = none
        ∧ (resetPomodoro cfg q).clearJob = none) := by
  refine ⟨rfl, ?_, ?_, ?_, ?_, ?_, ?_, ?_, ?_, ?_⟩
  · intro hrun htotal
    unfold timerPrimaryClick pauseResumeTimer
    rw [if_pos (by simp [hrun])]
    unfold startTimer
    rw [if_neg (by simp [hrun])]
    unfold timerTick
    rw [if_neg (by simp), if_pos (by exact htotal)]
    exact ⟨rfl, rfl, rfl⟩
  · intro hrun hpause
    unfold timerPrimaryClick pauseResumeTimer
    rw [if_neg (by simp [hrun]), if_pos (by simp [hpause])]
    unfold timerCancelJob
    rcases hj : s.job with _ | hjob <;> simp [hj, hpause]
  · intro hrun hpause
    unfold timerPrimaryClick pauseResumeTimer
    rw [if_neg (by simp [hrun]), if_neg (by simp [hpause])]
    unfold timerTick
    split
    · rfl
    · split <;> rfl
  · unfold timerDoubleClick stopTimer timerCancelJob
    rcases hj : s.job with _ | hjob <;> simp [hj]
  · intro hready hw
    have hstage : startStage cfg q =
        { q with phase := .work, remaining := cfg.workDuration,
                 running := true, paused := false, currentSession := 1 } := by
      unfold startStage
      rw [if_pos hready]
    unfold startPomodoro
    rw [hstage]
    rw [if_pos (by exact ⟨rfl, by simp⟩)]
    rw [tick_active cfg _ rfl rfl (Nat.mul_pos hw (by decide))]
    exact ⟨rfl, rfl⟩
  · intro hready hpause
    have hstage : startStage cfg q = { q with paused := false } := by
      unfold startStage
      rw [if_neg hready, if_pos hpause]
    unfold startPomodoro
    rw [hstage]
    split
    · rw [tick_paused]
    · rfl
  · intro hready hpause
    have hstage : startStage cfg q = { q with paused := true } := by
      unfold startStage
      rw [if_neg hready, if_neg (by simp [hpause])]
    unfold startPomodoro
    rw [hstage]
    rw [if_neg (by simp)]
  · intro hrun hphase hsb hlb
    unfold skipPhase
    rw [if_pos hrun]
    rcases hj : q.job with _ | hjob
    · have h := advancePhase_from_work cfg q hphase hsb hlb
      refine ⟨h.2.1, ?_⟩
      rw [h.1]
      split
      · exact Or.inl rfl
      · exact Or.inr rfl
    · have h := advancePhase_from_work cfg { btnAfterCancel q hjob with job := none }
        hphase hsb hlb
      refine ⟨h.2.1, ?_⟩
      rw [h.1]
      split
      · exact Or.inl rfl
      · exact Or.inr rfl
  · unfold resetPomodoro
    rcases hj : q.job with _ | hjob <;> rcases hc : q.clearJob with _ | hclear <;>
      simp [btnAfterCancel, hj, hc]

/-- Running work-phase pomodoro state used by the C7 witness. -/
def pomStateRun : PomState :=
  ⟨true, false, some 0, none, .work, 59, 0, 1, [(0, .tickCb)], 1⟩

/-- Witness for C7 (amended), on concrete states: the idle timer starts on
primary click, the pomodoro starts from ready, a skip on a running work
pomodoro counts the session, and reset returns to ready. -/
theorem c7_gesture_bindings_witness :
    ((timerPrimaryClick 60 (timerInit 60)).running = true
      ∧ (timerPrimaryClick 60 (timerInit 60)).paused = false
      ∧ (timerPrimaryClick 60 (timerInit 60)).remaining = 60 - 1)
    ∧ ((startPomodoro pomCfgFour (pomInit pomCfgFour)).phase = PomPhase.work
      ∧ (startPomodoro pomCfgFour (pomInit pomCfgFour)).running = true)
    ∧ (skipPhase pomCfgFour pomStateRun).sessionsCompleted = pomStateRun.sessionsCompleted + 1
    ∧ (resetPomodoro pomCfgFour pomStateRun).phase = PomPhase.ready := by
  refine ⟨?_, ?_, ?_, ?_⟩
  · exact (c7_gesture_bindings 60 pomCfgFour (timerInit 60) pomStateRun).2.1
      rfl (by decide)
  · exact (c7_gesture_bindings 60 pomCfgFour (timerInit 60)
      (pomInit pomCfgFour)).2.2.2.2.2.1 rfl (by decide)
  · exact ((c7_gesture_bindings 60 pomCfgFour (timerInit 60)
      pomStateRun).2.2.2.2.2.2.2.2.1 rfl rfl (by decide) (by decide)).1
  · exact (c7_gesture_bindings 60 pomCfgFour (timerInit 60)
      pomStateRun).2.2.2.2.2.2.2.2.2.1

/-! ## HTTP test handler (claim C9)

From src/core/button_types/http_test_handler.py: the branch of
`run_http_test` in which `requests.get(https_url, timeout, verify=True)`
returns without raising, and `update_label`. -/

/-- `state["results"]` of the HTTP test button:
`(status, response_time, https_status, cert_valid)`. -/
structure HttpRec where
  status : String
  responseTime : ℚ
  httpsStatus : String
  certValid : Bool
deriving Repr

/-- The result recorded by `run_http_test` when the verified HTTPS request
completes without raising: `status_code < 400` is a success, anything else
(400 and above) is recorded as `"failed"` even though the connection
succeeded. -/
def httpResultOfResponse (statusCode : ℕ) (responseTime : ℚ) : HttpRec :=
  if statusCode < 400 then ⟨"success", responseTime, "https", true⟩
  else ⟨"failed", responseTime, "https", true⟩

/-- `urlparse(u).netloc` for the URL shapes the handler meets: the text
between `"://"` and the next slash, empty when there is no scheme. -/
def urlparseNetloc (u : String) : String :=
  match u.splitOn "://" with
  | _ :: rest :: _ => ((rest.splitOn "/").headD "")
  | _ => ""

/-- `urlparse(u).path` for a scheme-less URL (the only case `update_label`
uses it): the whole string. -/
def urlparsePath (u : String) : String :=
  match u.splitOn "://" with
  | [p] => p
  | _ => ""

/-- The domain displayed by `update_label`: the netloc, falling back to
`path.split('/')[0]` when the netloc is empty. -/
def displayDomain (testUrl : String) : String :=
  let netloc := urlparseNetloc testUrl
  if netloc = "" then ((urlparsePath testUrl).splitOn "/").headD ""
  else netloc

/-- The `time_str` of the HTTP `update_label`:
`f"{rt*1000:.0f}ms"` under one second, else `f"{rt:.1f}s"`. -/
def httpTimeText (responseTime : ℚ) : String :=
  if responseTime < 1 then formatFixed0 (responseTime * 1000) ++ "ms"
  else formatFixed1 responseTime ++ "s"

/-- `update_label` of `create_http_test_button`: while running show
"Testing..."; a success renders lock-icon + domain + formatted latency; any
other recorded result renders "❌ Failed"; no result restores the label. -/
def httpUpdateLabelText (running : Bool) (results : Option HttpRec)
    (testUrl origLabel : String) : String :=
  if running then "Testing..."
  else
    match results with
    | some r =>
      if r.status = "success" then
        (if r.httpsStatus = "https" then
            (if r.certValid then "🔒" else "🔓")
          else "🌐")
          ++ " " ++ displayDomain testUrl ++ "\n" ++ httpTimeText r.responseTime
      else "❌ " ++ "Failed"
    | none => origLabel

/-- Claim C9: when the HTTP-test request completes without raising but the
response status code is 400 or greater, the worker records a failed result
despite the successful connection, and the button renders "❌ Failed"
instead of the lock-icon, domain and latency format. -/
theorem c9_http_error_status (statusCode : ℕ) (responseTime : ℚ)
    (testUrl origLabel : String) (hcode : 400 ≤ statusCode) :
    (httpResultOfResponse statusCode responseTime).status = "failed"
    ∧ httpUpdateLabelText false
        (some (httpResultOfResponse statusCode responseTime)) testUrl origLabel
        = "❌ Failed" := by
  have hlt : ¬ statusCode < 400 := by omega
  unfold httpResultOfResponse
  rw [if_neg hlt]
  refine ⟨rfl, ?_⟩
  unfold httpUpdateLabelText
  rw [if_neg (by decide)]
  rfl

/-- Witness for C9: a 404 over verified HTTPS in a quarter second records a
failure and renders "❌ Failed". -/
theorem c9_http_error_status_witness :
    (httpResultOfResponse 404 (1/4)).status = "failed"
    ∧ httpUpdateLabelText false (some (httpResultOfResponse 404 (1/4)))
        "https://example.com" "HTTP Test" = "❌ Failed" :=
  c9_http_error_status 404 (1/4) "https://example.com" "HTTP Test" (by decide)

/-! ## Color picker handler (claim C10)

From src/core/button_types/color_picker_handler.py: `get_pixel_color` and
the `on_click` body of `pick_color_from_screen`. -/

/-- One hexadecimal digit (lowercase, for `n < 16`). -/
def hexDigitChar (n : ℕ) : Char :=
  if n < 10 then Char.ofNat (48 + n) else Char.ofNat (87 + n)

/-- `f"{n:02x}"` for byte values `n < 256`. -/
def hex2 (n : ℕ) : String :=
  ⟨[hexDigitChar (n / 16 % 16), hexDigitChar (n % 16)]⟩

/-- `get_pixel_color(x, y)`: try PIL (producing an RGB triple when it works
and the pixel has at least three components), then the platform-specific
fallback; when EVERY method fails without raising, return the hard-coded
test color `"ff0000"`.  Only an exception reaching the outer handler
(`outerRaised`) produces `None`. -/
def getPixelColor (pilPixel : Option (ℕ × ℕ × ℕ))
    (platformColor : Option String) (outerRaised : Bool) : Option String :=
  if outerRaised then none
  else
    match pilPixel with
    | some (r, g, b) => some (hex2 r ++ hex2 g ++ hex2 b)
    | none =>
      match platformColor with
      | some c => some c
      | none => some "ff0000"

/-- What the `on_click` handler of the picking overlay does with the color
returned by `get_pixel_color`. -/
inductive PickResult where
  | picked (hex clipboard : String)
  | pickFailedShown
deriving DecidableEq, Repr

/-- `on_click`: a non-`None` color is stored and copied to the clipboard
with a leading hashtag; only `None` shows the "Pick failed" error text. -/
def onClickOutcome (color : Option String) : PickResult :=
  match color with
  | some c => .picked c ("#" ++ c)
  | none => .pickFailedShown

/-- `update_label` of `create_color_picker_button` (text only). -/
def colorPickButtonText (picking : Bool) (color : Option String)
    (origLabel : String) : String :=
  if picking then "Click on screen..."
  else
    match color with
    | some c => "#" ++ c ++ "\n" ++ "Copied!"
    | none => origLabel

/-- Claim C10: when every detection method fails without raising (PIL
unavailable or failing, every platform fallback returning nothing),
`get_pixel_color` returns the hard-coded `"ff0000"`, so the completely
failed pick is treated as a successful red sample — stored, copied to the
clipboard as "#ff0000" and rendered as a picked color — and the
"Pick failed" path is never reached. -/
theorem c10_failed_pick_red :
    getPixelColor none none false = some "ff0000"
    ∧ onClickOutcome (getPixelColor none none false)
        = PickResult.picked "ff0000" "#ff0000"
    ∧ onClickOutcome (getPixelColor none none false) ≠ PickResult.pickFailedShown
    ∧ colorPickButtonText false (getPixelColor none none false) "Color Picker"
        = "#ff0000\nCopied!" := by
  refine ⟨rfl, rfl, ?_, rfl⟩
  decide

end QuickButtons
